import Mathlib

/-!
Verification development for the live-chat engagement engine.

The definitions below are shallow embeddings of the JavaScript sources:

* `src/services/projectService.js` — the credential pool (`ProjectService`):
  `getNextAvailableProject`, the daily quota-reset sweep, `markQuotaExceeded`.
* `src/bot/service.js` — the bot engine (`BotService`): `processMessage`,
  `pollChat`, `sendMessage`, `startBot`, `stopBot`, `resetWelcomeMessages`,
  `resetIsAdmin`, `distributePoints`, `handleGambleCommand`.

Stateful JavaScript (instance fields, Mongo collections, Node timers) is
modelled by explicit state records; network calls are modelled as emitted
`Action` values; `Date` values are split into a millisecond instant (`Int`)
and a local calendar date (`CalDate`) where the code compares calendar
components.
-/

namespace YTLive

/-- Local calendar date as produced by `getFullYear` / `getMonth` / `getDate`. -/
structure CalDate where
  year : Int
  month : Nat
  day : Nat
deriving DecidableEq, Repr

/-- Strict calendar order on local dates (lexicographic year, month, day). -/
def dateLTb (a b : CalDate) : Bool :=
  decide (a.year < b.year) ||
    (decide (a.year = b.year) &&
      (decide (a.month < b.month) ||
        (decide (a.month = b.month) && decide (a.day < b.day))))

/-- Non-strict calendar order on local dates. -/
def dateLEb (a b : CalDate) : Bool :=
  dateLTb a b || decide (a = b)

theorem dateLTb_iff_ne_of_le {d t : CalDate} (h : dateLEb d t = true) :
    (dateLTb d t = true) ↔ d ≠ t := by
  cases d with
  | mk dy dm dd =>
    cases t with
    | mk ty tm td =>
      simp only [dateLEb, dateLTb, Bool.or_eq_true, Bool.and_eq_true,
        decide_eq_true_eq, CalDate.mk.injEq, ne_eq] at h ⊢
      constructor
      · rintro (h1 | ⟨h1, h2 | ⟨h2, h3⟩⟩) ⟨e1, e2, e3⟩ <;> omega
      · intro hne
        rcases h with h | h
        · exact h
        · exact absurd h hne

/-- One API credential as stored in the `Project` Mongo collection
(`src/models/Project.js`).  `oauthAccessToken` models
`oauthTokens.access_token` (`none` when the field is absent),
`quotaExceededAt` the local calendar date of the stored instant.
-/
structure Project where
  projectId : String
  oauthAccessToken : Option String
  isActive : Bool
  priority : Int
  quotaExceeded : Bool
  quotaExceededAt : Option CalDate
  lastUsed : Option CalDate
deriving DecidableEq, Repr

/-- The in-memory state of `ProjectService`: the project collection and the
round-robin cursor `currentProjectIndex`. -/
structure PoolState where
  projects : List Project
  currentProjectIndex : Nat
deriving DecidableEq, Repr

/-- Embeds `loadProjects`: `Project.find({ isActive: true }).sort({ priority: 1 })`. -/
def loadProjects (db : List Project) : List Project :=
  List.insertionSort (fun a b => a.priority ≤ b.priority)
    (db.filter (fun p => p.isActive))

/-- The filter used for `availableProjects`:
`p.oauthTokens?.access_token && !p.quotaExceeded`. -/
def isUsable (p : Project) : Bool :=
  p.oauthAccessToken.isSome && !p.quotaExceeded

/-- The reset predicate of the quota sweep: `quotaExceededAt` is present and
its local calendar triple (day, month, year) differs from today's. -/
def needsReset (today : CalDate) (p : Project) : Bool :=
  match p.quotaExceededAt with
  | none => false
  | some d => decide (d ≠ today)

/-- The quota-reset sweep: every loaded (active) project satisfying
`needsReset` gets `quotaExceeded := false, quotaExceededAt := null` saved. -/
def sweep (today : CalDate) (db : List Project) : List Project :=
  db.map (fun p =>
    if p.isActive && needsReset today p then
      { p with quotaExceeded := false, quotaExceededAt := none }
    else p)

theorem mem_loadProjects {db : List Project} {p : Project} :
    p ∈ loadProjects db ↔ p ∈ db ∧ p.isActive = true := by
  unfold loadProjects
  rw [(List.perm_insertionSort (fun a b => a.priority ≤ b.priority)
        (db.filter (fun p => p.isActive))).mem_iff]
  simp [List.mem_filter]

theorem needsReset_sweep (today : CalDate) (db : List Project) :
    (loadProjects (sweep today db)).filter (needsReset today) = [] := by
  rw [List.filter_eq_nil_iff]
  intro p hp
  rw [mem_loadProjects] at hp
  obtain ⟨hmem, hact⟩ := hp
  unfold sweep at hmem
  rw [List.mem_map] at hmem
  obtain ⟨q, _, hq⟩ := hmem
  by_cases hcond : (q.isActive && needsReset today q) = true
  · rw [if_pos hcond] at hq
    subst hq
    simp [needsReset]
  · rw [if_neg hcond] at hq
    subst hq
    simp only [Bool.and_eq_true, not_and] at hcond
    simp [hcond hact]

/-- Embeds `getNextAvailableProject` (src/services/projectService.js:142-183):
round-robin selection over the usable projects; on an empty usable set,
runs the daily quota-reset sweep and recurses; errors when nothing can be
reset. -/
def getNextAvailableProject (s : PoolState) (today : CalDate) :
    Except String (Project × PoolState) :=
  if hav : ((loadProjects s.projects).filter isUsable).length = 0 then
    if ((loadProjects s.projects).filter (needsReset today)).length = 0 then
      Except.error "No available projects with quota remaining"
    else
      getNextAvailableProject ⟨sweep today s.projects, s.currentProjectIndex⟩ today
  else
    let available := (loadProjects s.projects).filter isUsable
    let idx := (s.currentProjectIndex + 1) % available.length
    let sel := available.get ⟨idx, Nat.mod_lt _ (Nat.pos_of_ne_zero hav)⟩
    Except.ok ({ sel with lastUsed := some today },
      ⟨s.projects.map (fun q =>
          if q.projectId = sel.projectId then { q with lastUsed := some today } else q),
        idx⟩)
termination_by ((loadProjects s.projects).filter (needsReset today)).length
decreasing_by
  simp only [needsReset_sweep, List.length_nil]
  omega

/-- Embeds `markQuotaExceeded` (src/services/projectService.js:186-198): sets
`quotaExceeded` and stamps `quotaExceededAt` with the current instant. -/
def markQuotaExceeded (db : List Project) (pid : String) (today : CalDate) :
    List Project :=
  db.map (fun p =>
    if p.projectId = pid then
      { p with quotaExceeded := true, quotaExceededAt := some today }
    else p)

/-- Embeds `markQuotaExceeded` only ever stamps the current date, so the invariant
that every stored `quotaExceededAt` is not in the future is preserved. -/
theorem markQuotaExceeded_dates_le (db : List Project) (pid : String)
    (today : CalDate)
    (h : ∀ p ∈ db, ∀ d, p.quotaExceededAt = some d → dateLEb d today = true) :
    ∀ p ∈ markQuotaExceeded db pid today, ∀ d,
      p.quotaExceededAt = some d → dateLEb d today = true := by
  intro p hp d hd
  unfold markQuotaExceeded at hp
  rw [List.mem_map] at hp
  obtain ⟨q, hq, hqe⟩ := hp
  by_cases hc : q.projectId = pid
  · rw [if_pos hc] at hqe
    subst hqe
    simp only [Option.some.injEq] at hd
    subst hd
    simp [dateLEb]
  · rw [if_neg hc] at hqe
    subst hqe
    exact h q hq d hd

theorem sweep_id_of_no_reset (today : CalDate) (db : List Project)
    (h : (loadProjects db).filter (needsReset today) = []) :
    sweep today db = db := by
  rw [List.filter_eq_nil_iff] at h
  unfold sweep
  have : ∀ p ∈ db,
      (if p.isActive && needsReset today p then
        { p with quotaExceeded := false, quotaExceededAt := none } else p) = p := by
    intro p hp
    by_cases hact : p.isActive = true
    · have hmem : p ∈ loadProjects db := mem_loadProjects.mpr ⟨hp, hact⟩
      have hnr : ¬(needsReset today p = true) := h p hmem
      rw [if_neg]
      simp only [Bool.and_eq_true, not_and]
      intro
      exact hnr
    · rw [if_neg]
      simp only [Bool.and_eq_true, not_and]
      intro hc
      exact absurd hc hact
  calc db.map _ = db.map id := List.map_congr_left this
    _ = db := List.map_id db

theorem isUsable_fields {p : Project} (h : isUsable p = true) :
    p.oauthAccessToken.isSome = true ∧ p.quotaExceeded = false := by
  unfold isUsable at h
  simp only [Bool.and_eq_true, Bool.not_eq_true'] at h
  exact h

theorem getNext_ok_of_available (s : PoolState) (today : CalDate)
    (h : (loadProjects s.projects).filter isUsable ≠ []) :
    ∃ p s2, getNextAvailableProject s today = Except.ok (p, s2) ∧
      p.oauthAccessToken.isSome = true ∧ p.quotaExceeded = false := by
  have hlen : ¬(((loadProjects s.projects).filter isUsable).length = 0) := by
    simpa [List.length_eq_zero] using h
  unfold getNextAvailableProject
  rw [dif_neg hlen]
  refine ⟨_, _, rfl, ?_, ?_⟩ <;>
  · have hm := List.get_mem ((loadProjects s.projects).filter isUsable)
      ((s.currentProjectIndex + 1) % ((loadProjects s.projects).filter isUsable).length)
      (Nat.mod_lt _ (Nat.pos_of_ne_zero hlen))
    have hu := (List.mem_filter.mp hm).2
    obtain ⟨h1, h2⟩ := isUsable_fields hu
    rw [List.get_eq_getElem] at h1 h2
    first
    | exact h1
    | exact h2

theorem getNext_error_of_empty (s : PoolState) (today : CalDate)
    (h1 : (loadProjects s.projects).filter isUsable = [])
    (h2 : (loadProjects s.projects).filter (needsReset today) = []) :
    getNextAvailableProject s today =
      Except.error "No available projects with quota remaining" := by
  unfold getNextAvailableProject
  rw [dif_pos (by simp [h1]), if_pos (by simp [h2])]

theorem getNext_sweeps_of_empty (s : PoolState) (today : CalDate)
    (h1 : (loadProjects s.projects).filter isUsable = [])
    (h2 : (loadProjects s.projects).filter (needsReset today) ≠ []) :
    getNextAvailableProject s today =
      getNextAvailableProject ⟨sweep today s.projects, s.currentProjectIndex⟩ today := by
  conv_lhs => unfold getNextAvailableProject
  rw [dif_pos (by simp [h1]), if_neg (by simpa [List.length_eq_zero] using h2)]

/-- Claim C1: whenever at least one credential with an access token and
`quotaExceeded=false` exists among the loaded (active) projects,
`getNextAvailableProject` returns such a credential; when none exists it
performs one quota-reset sweep clearing exactly the active credentials whose
`quotaExceededAt` calendar date is strictly earlier than today (given the
invariant, preserved by `markQuotaExceeded`, that no stored date is in the
future), retries selection once on the swept pool, and fails with the
no-credential error if the usable set is still empty.
-/
theorem getNextAvailableProject_spec (s : PoolState) (today : CalDate)
    (hpast : ∀ p ∈ s.projects, ∀ d, p.quotaExceededAt = some d →
      dateLEb d today = true) :
    ((loadProjects s.projects).filter isUsable ≠ [] →
        ∃ p s2, getNextAvailableProject s today = Except.ok (p, s2) ∧
          p.oauthAccessToken.isSome = true ∧ p.quotaExceeded = false) ∧
    ((loadProjects s.projects).filter isUsable = [] →
        (∀ p ∈ s.projects, (p.isActive = true ∧ needsReset today p = true) ↔
            (p.isActive = true ∧
              ∃ d, p.quotaExceededAt = some d ∧ dateLTb d today = true)) ∧
        ((loadProjects (sweep today s.projects)).filter isUsable ≠ [] →
            ∃ p s2, getNextAvailableProject s today = Except.ok (p, s2) ∧
              p.oauthAccessToken.isSome = true ∧ p.quotaExceeded = false) ∧
        ((loadProjects (sweep today s.projects)).filter isUsable = [] →
            getNextAvailableProject s today =
              Except.error "No available projects with quota remaining")) := by
  constructor
  · intro h
    exact getNext_ok_of_available s today h
  · intro hempty
    refine ⟨?_, ?_, ?_⟩
    · intro p hp
      constructor
      · rintro ⟨hact, hnr⟩
        refine ⟨hact, ?_⟩
        unfold needsReset at hnr
        cases hqe : p.quotaExceededAt with
        | none => rw [hqe] at hnr; exact absurd hnr (by simp)
        | some d =>
          rw [hqe] at hnr
          have hle := hpast p hp d hqe
          exact ⟨d, rfl, (dateLTb_iff_ne_of_le hle).mpr (by simpa using hnr)⟩
      · rintro ⟨hact, d, hqe, hlt⟩
        refine ⟨hact, ?_⟩
        unfold needsReset
        rw [hqe]
        have hle := hpast p hp d hqe
        simpa using (dateLTb_iff_ne_of_le hle).mp hlt
    · intro h2
      by_cases hrs : (loadProjects s.projects).filter (needsReset today) = []
      · rw [sweep_id_of_no_reset today s.projects hrs] at h2
        exact absurd hempty h2
      · rw [getNext_sweeps_of_empty s today hempty hrs]
        exact getNext_ok_of_available ⟨sweep today s.projects, s.currentProjectIndex⟩ today h2
    · intro h2
      by_cases hrs : (loadProjects s.projects).filter (needsReset today) = []
      · exact getNext_error_of_empty s today hempty hrs
      · rw [getNext_sweeps_of_empty s today hempty hrs]
        exact getNext_error_of_empty ⟨sweep today s.projects, s.currentProjectIndex⟩ today h2
          (needsReset_sweep today s.projects)

/-- A concrete pool used to witness claim C1: one exhausted-yesterday
credential alongside one usable credential. -/
def poolC1 : PoolState :=
  ⟨[{ projectId := "p1", oauthAccessToken := some "tok1", isActive := true,
      priority := 1, quotaExceeded := false, quotaExceededAt := none,
      lastUsed := none },
    { projectId := "p2", oauthAccessToken := some "tok2", isActive := true,
      priority := 2, quotaExceeded := true,
      quotaExceededAt := some ⟨2025, 8, 11⟩, lastUsed := none }], 0⟩

/-- Witness for claim C1 at a concrete pool with a usable credential. -/
theorem getNextAvailableProject_spec_witness :
    ∃ p s2, getNextAvailableProject poolC1 ⟨2025, 8, 12⟩ = Except.ok (p, s2) ∧
      p.oauthAccessToken.isSome = true ∧ p.quotaExceeded = false :=
  (getNextAvailableProject_spec poolC1 ⟨2025, 8, 12⟩ (by decide)).1 (by decide)

/-! ## Bot engine (src/bot/service.js) -/

/-- One `Viewer` document (src/models/Viewer.js).  Mongo documents may lack
a field entirely, so the fields the code reads with JavaScript truthiness
(`isAdmin`, `welcomeMessage`) are `Option Bool` with `none` for an absent
field; `lastActive` is a millisecond instant. -/
structure Viewer where
  channelId : String
  viewerId : String
  username : String
  points : Int
  watchMinutes : Int
  lastActive : Int
  isAdmin : Option Bool
  isFree : Bool
  welcomeMessage : Option Bool
deriving DecidableEq, Repr

/-- The per-channel entry of `this.activeStreams`. -/
structure StreamInfo where
  liveChatId : String
  nextPageToken : Option String
  firstPoll : Bool
deriving DecidableEq, Repr

/-- Kinds of repeating Node timers created by `startBot` / `setupAutoMessage`. -/
inductive TaskKind where
  | pollTask
  | autoMsgTask
  | pointsTask
deriving DecidableEq, Repr

/-- A live Node timer: its handle, the channel it serves and what it runs. -/
structure Timer where
  id : Nat
  channel : String
  kind : TaskKind
deriving DecidableEq, Repr

/-- An inbound chat event (`liveChatMessages.list` item): message id,
`snippet.displayMessage`, `authorDetails.channelId`,
`authorDetails.displayName`. -/
structure ChatMessage where
  id : Option String
  text : String
  authorChannelId : String
  authorDisplayName : String
deriving DecidableEq, Repr

/-- A network side effect of the engine (one YouTube API call or a hand-off
to the command dispatcher). -/
inductive Action where
  | insertChat (liveChatId text : String)
  | deleteChat (messageId : String)
  | banUser (liveChatId userChannelId : String) (seconds : Nat)
  | listChat (liveChatId : String) (cursorOnly : Bool) (pageToken : Option String)
  | dispatchCmd (channelId authorId authorName command argStr : String)
deriving DecidableEq, Repr

/-- The mutable state of the `BotService` singleton plus the persisted
`Viewer` and `Channel` collections, and the set of live Node timers. -/
structure BotState where
  activeStreams : List (String × StreamInfo)
  autoMessageTimers : List (String × Nat)
  pollIntervals : List (String × Nat)
  lastMessageTimestamps : List (String × Int)
  gambleCooldowns : List ((String × String) × Int)
  recentMessages : List ((String × String) × List String)
  timeoutUsers : List ((String × String) × Int)
  modCache : List (String × List String)
  scheduled : List Timer
  nextTimerId : Nat
  viewers : List Viewer
  channels : List (String × Bool)
deriving DecidableEq, Repr

/-- Association-list lookup (JavaScript `Map.get`). -/
def lookupA {K V : Type} [DecidableEq K] (m : List (K × V)) (k : K) : Option V :=
  (m.find? (fun e => decide (e.1 = k))).map (fun e => e.2)

/-- Association-list update (JavaScript `Map.set`). -/
def insertA {K V : Type} [DecidableEq K] (m : List (K × V)) (k : K) (v : V) :
    List (K × V) :=
  (k, v) :: m.filter (fun e => decide (e.1 ≠ k))

/-- Association-list removal (JavaScript `Map.delete`). -/
def eraseA {K V : Type} [DecidableEq K] (m : List (K × V)) (k : K) :
    List (K × V) :=
  m.filter (fun e => decide (e.1 ≠ k))

theorem lookupA_insertA_self {K V : Type} [DecidableEq K]
    (m : List (K × V)) (k : K) (v : V) : lookupA (insertA m k v) k = some v := by
  simp [lookupA, insertA, List.find?]

theorem lookupA_eraseA_self {K V : Type} [DecidableEq K]
    (m : List (K × V)) (k : K) : lookupA (eraseA m k) k = none := by
  simp only [lookupA, eraseA, Option.map_eq_none', List.find?_eq_none,
    List.mem_filter]
  rintro ⟨a, b⟩ ⟨_, hne⟩
  simpa using hne

/-- Embeds `sendMessage` (src/bot/service.js:788-821): silently drops the message
when the channel has no active stream; otherwise inserts one chat message
into the stream's live chat. -/
def sendMessage (s : BotState) (channelId text : String) :
    BotState × List Action :=
  match lookupA s.activeStreams channelId with
  | none => (s, [])
  | some st => (s, [Action.insertChat st.liveChatId text])

/-- Embeds `Viewer.findOne({ channelId, viewerId })`. -/
def findViewer (vs : List Viewer) (c u : String) : Option Viewer :=
  vs.find? (fun v => decide (v.channelId = c) && decide (v.viewerId = u))

/-- Embeds `Viewer.findOneAndUpdate(..., { username, lastActive }, { upsert: true })`
as used for liveness bookkeeping; a missing document is created with the
schema defaults. -/
def updateViewerActive (vs : List Viewer) (c u name : String) (now : Int) :
    List Viewer :=
  match findViewer vs c u with
  | some _ =>
      vs.map (fun v =>
        if v.channelId = c ∧ v.viewerId = u then
          { v with username := name, lastActive := now }
        else v)
  | none =>
      vs ++ [{ channelId := c, viewerId := u, username := name, points := 0,
               watchMinutes := 0, lastActive := now, isAdmin := some false,
               isFree := false, welcomeMessage := some false }]

/-- Embeds `Viewer.findOneAndUpdate(..., { welcomeMessage: true }, { upsert: true })`. -/
def setWelcomeSent (vs : List Viewer) (c u : String) : List Viewer :=
  vs.map (fun v =>
    if v.channelId = c ∧ v.viewerId = u then
      { v with welcomeMessage := some true }
    else v)

/-- Embeds `Viewer.findOneAndUpdate(..., { $inc: { points: delta } })`. -/
def incPoints (vs : List Viewer) (c u : String) (delta : Int) : List Viewer :=
  vs.map (fun v =>
    if v.channelId = c ∧ v.viewerId = u then
      { v with points := v.points + delta }
    else v)

/-- Embeds `resetWelcomeMessages` (src/bot/service.js:222-229):
`Viewer.updateMany({ channelId }, { $set: { welcomeMessage: false } })`. -/
def resetWelcomeMessages (c : String) (vs : List Viewer) : List Viewer :=
  vs.map (fun v =>
    if v.channelId = c then { v with welcomeMessage := some false } else v)

/-- Embeds `resetIsAdmin` (src/bot/service.js:231-238):
`Viewer.updateMany({ channelId }, { $unset: { isAdmin: "" } })`. -/
def resetIsAdmin (c : String) (vs : List Viewer) : List Viewer :=
  vs.map (fun v =>
    if v.channelId = c then { v with isAdmin := none } else v)

/-- Embeds `distributePoints` (src/bot/service.js:492-519): every viewer of the
channel whose `lastActive` lies within the trailing ten minutes gets
`$inc: { points: 10, watchMinutes: 10 }`. -/
def distributePoints (c : String) (now : Int) (vs : List Viewer) : List Viewer :=
  vs.map (fun v =>
    if v.channelId = c ∧ now - 10 * 60 * 1000 ≤ v.lastActive then
      { v with points := v.points + 10, watchMinutes := v.watchMinutes + 10 }
    else v)

/-- The fixed onboarding message sent on session start. -/
def onboardingText : String :=
  "I am ON! command list: /points ,/hours ,/top ,/tophours ,/gamble ,/ask"

/-- Embeds `startBot` (src/bot/service.js:154-220): resets welcome and admin state,
caches the moderator list, registers the stream with `firstPoll` set, sends
the onboarding message, starts the 4-second polling interval (handle stored
in `pollIntervals`) and schedules the 10-minute points distribution (handle
stored nowhere). -/
def startBot (s : BotState) (channelId liveChatId : String)
    (modList : List String) : BotState × List Action :=
  let s := { s with
    viewers := resetIsAdmin channelId (resetWelcomeMessages channelId s.viewers),
    modCache := insertA s.modCache channelId modList }
  let s := { s with
    activeStreams := insertA s.activeStreams channelId
      { liveChatId := liveChatId, nextPageToken := none, firstPoll := true } }
  let r := sendMessage s channelId onboardingText
  let s := r.1
  let pollId := s.nextTimerId
  let s := { s with
    scheduled := s.scheduled ++
      [({ id := pollId, channel := channelId, kind := TaskKind.pollTask } : Timer)],
    pollIntervals := insertA s.pollIntervals channelId pollId,
    nextTimerId := pollId + 1 }
  let ptsId := s.nextTimerId
  let s := { s with
    scheduled := s.scheduled ++
      [({ id := ptsId, channel := channelId, kind := TaskKind.pointsTask } : Timer)],
    nextTimerId := ptsId + 1 }
  (s, r.2)

/-- Embeds `stopBot` (src/bot/service.js:840-852): drops the stream entry, clears
the auto-message timer and the polling interval if their handles are in the
maps, and discards the moderator cache.  The points-distribution timers are
not touched (no handle was kept). -/
def stopBot (s : BotState) (channelId : String) : BotState :=
  let s := { s with activeStreams := eraseA s.activeStreams channelId }
  let s :=
    match lookupA s.autoMessageTimers channelId with
    | some tid =>
        { s with scheduled := s.scheduled.filter (fun t => decide (t.id ≠ tid)),
                 autoMessageTimers := eraseA s.autoMessageTimers channelId }
    | none => s
  let s :=
    match lookupA s.pollIntervals channelId with
    | some tid =>
        { s with scheduled := s.scheduled.filter (fun t => decide (t.id ≠ tid)),
                 pollIntervals := eraseA s.pollIntervals channelId }
    | none => s
  { s with modCache := eraseA s.modCache channelId }

/-- ASCII lowering of one character, the effect of `toLowerCase` on the
ASCII range the engine's checks depend on. -/
def lowerChar (c : Char) : Char :=
  if 65 ≤ c.toNat ∧ c.toNat ≤ 90 then Char.ofNat (c.toNat + 32) else c

/-- Embeds `text.toLowerCase()`. -/
def jsToLower (s : String) : String :=
  ⟨s.data.map lowerChar⟩

/-- Embeds `text.toLowerCase().startsWith('/')`. -/
def startsWithSlash (s : String) : Bool :=
  match (jsToLower s).data with
  | [] => false
  | c :: _ => decide (c = '/')

/-- The regex test `/https?:\/\//i` on the message text. -/
def containsLink (text : String) : Bool :=
  let l := (jsToLower text).data
  decide (List.IsInfix "http://".data l) ||
    decide (List.IsInfix "https://".data l)

/-- Embeds `split(' ')` on a character list: split at every single space, keeping
empty segments. -/
def splitOnSpaceAux : List Char → List Char → List (List Char)
  | [], acc => [acc.reverse]
  | c :: rest, acc =>
      if c = ' ' then acc.reverse :: splitOnSpaceAux rest []
      else splitOnSpaceAux rest (c :: acc)

/-- Embeds `parts.join(' ')`. -/
def joinSpaces : List (List Char) → List Char
  | [] => []
  | [x] => x
  | x :: xs => x ++ ' ' :: joinSpaces xs

/-- Embeds `text.slice(1).split(' ')`: first token is the command, the rest joined
by spaces is the argument string. -/
def parseCommand (text : String) : String × String :=
  match splitOnSpaceAux (text.data.drop 1) [] with
  | [] => ("", "")
  | c :: rest => (⟨c⟩, ⟨joinSpaces rest⟩)

/-- Embeds `template.replace(pattern, name)`: JavaScript `String.replace` with a
string pattern substitutes only the first occurrence. -/
def replaceFirst : List Char → List Char → List Char → List Char
  | [], _, _ => []
  | c :: rest, pat, rep =>
      if pat.isPrefixOf (c :: rest) then rep ++ (c :: rest).drop pat.length
      else c :: replaceFirst rest pat rep

/-- The `welcomeMessages` templates of the `BotService` constructor. -/
def welcomeMessagesList : List String :=
  ["Hey {name} , welcome to the stream baby! 💖",
   "So glad you joined us babe, {name} ! Enjoy the vibes! 🥰",
   "Welcome, {name} ! Sending you lots of love sweetie! ❤️"]

/-- One randomly indexed welcome template with `{name}` substituted. -/
def welcomeText (randIdx : Nat) (name : String) : String :=
  ⟨replaceFirst
    (welcomeMessagesList.getD (randIdx % welcomeMessagesList.length) "").data
    "{name}".data name.data⟩

/-- JavaScript truthiness of a possibly-absent boolean field. -/
def welcomeTruthy : Option Bool → Bool
  | some b => b
  | none => false

/-- Steps 8 of message processing: update the channel's last-message
timestamp and the viewer's `lastActive`/`username`, then hand any
`/`-command to the dispatcher. -/
def bookkeepAndDispatch (s : BotState) (channelId : String) (msg : ChatMessage)
    (now : Int) : BotState × List Action :=
  let s := { s with
    lastMessageTimestamps := insertA s.lastMessageTimestamps channelId now,
    viewers := updateViewerActive s.viewers channelId msg.authorChannelId
      msg.authorDisplayName now }
  if startsWithSlash msg.text then
    let pc := parseCommand msg.text
    (s, [Action.dispatchCmd channelId msg.authorChannelId msg.authorDisplayName
      pc.1 pc.2])
  else (s, [])

/-- The spam/link punishment: delete the message (when it has an id), set
the in-memory one-minute timeout, issue the remote one-minute ban (when the
stream and author id are known), and send the public warning. -/
def spamPunish (s : BotState) (channelId : String) (msg : ChatMessage)
    (now : Int) (warning : String) : BotState × List Action :=
  let liveChatId := (lookupA s.activeStreams channelId).map
    (fun st => st.liveChatId)
  let delActs := match msg.id with
    | some mid => [Action.deleteChat mid]
    | none => []
  let newTimeouts := insertA s.timeoutUsers (channelId, msg.authorChannelId)
    (now + 60 * 1000)
  let s := { s with timeoutUsers := newTimeouts }
  let banActs := match liveChatId with
    | some lid =>
        if msg.authorChannelId = "" then [] else [Action.banUser lid msg.authorChannelId 60]
    | none => []
  let r := sendMessage s channelId warning
  (r.1, delActs ++ banActs ++ r.2)

/-- Steps 7-8 of message processing: when the channel has moderation
enabled, maintain the 5-entry sliding window, punish a repeated identical
message or a link, otherwise fall through to bookkeeping and dispatch. -/
def processContent (s : BotState) (channelId : String) (msg : ChatMessage)
    (now : Int) : BotState × List Action :=
  let text := msg.text
  let userKey := (channelId, msg.authorChannelId)
  let moderationEnabled := (lookupA s.channels channelId).getD false
  if moderationEnabled then
    let recent0 := (lookupA s.recentMessages userKey).getD [] ++ [text]
    let recent := if 5 < recent0.length then recent0.drop (recent0.length - 5)
      else recent0
    let s := { s with recentMessages := insertA s.recentMessages userKey recent }
    if 2 ≤ (recent.filter (fun m => decide (m = text))).length then
      spamPunish s channelId msg now
        ("@" ++ msg.authorDisplayName ++
          " spamming is not allowed! You are timed out for 1 min 😡")
    else if containsLink text then
      spamPunish s channelId msg now
        ("@" ++ msg.authorDisplayName ++
          " posting links is not allowed! You are timed out for 1 min 😡")
    else
      bookkeepAndDispatch s channelId msg now
  else
    bookkeepAndDispatch s channelId msg now

/-- Embeds `processMessage` (src/bot/service.js:295-459): self-filter, viewer
materialization, free-pass short-circuit, welcome logic, timeout gate,
then content policy / bookkeeping / dispatch. -/
def processMessage (s : BotState) (channelId : String) (msg : ChatMessage)
    (botChannelId : Option String) (now : Int) (randIdx : Nat) :
    BotState × List Action :=
  if msg.text = "" then (s, [])
  else if botChannelId = some msg.authorChannelId then
    ({ s with
        lastMessageTimestamps := insertA s.lastMessageTimestamps channelId now,
        viewers := updateViewerActive s.viewers channelId msg.authorChannelId
          msg.authorDisplayName now }, [])
  else
    let vres : Viewer × BotState :=
      match findViewer s.viewers channelId msg.authorChannelId with
      | some v => (v, s)
      | none =>
          let v : Viewer :=
            { channelId := channelId, viewerId := msg.authorChannelId,
              username := msg.authorDisplayName, points := 0, watchMinutes := 0,
              lastActive := now, isAdmin := some false, isFree := false,
              welcomeMessage := some false }
          (v, { s with viewers := s.viewers ++ [v] })
    let viewer := vres.1
    let s := vres.2
    if viewer.isFree then
      let s := { s with
        lastMessageTimestamps := insertA s.lastMessageTimestamps channelId now,
        viewers := updateViewerActive s.viewers channelId msg.authorChannelId
          msg.authorDisplayName now }
      if startsWithSlash msg.text then
        let pc := parseCommand msg.text
        (s, [Action.dispatchCmd channelId msg.authorChannelId
          msg.authorDisplayName pc.1 pc.2])
      else (s, [])
    else
      let wres : BotState × List Action :=
        if welcomeTruthy viewer.welcomeMessage then (s, [])
        else
          let name := if msg.authorDisplayName = "" then "friend"
            else msg.authorDisplayName
          let r := sendMessage s channelId (welcomeText randIdx name)
          let vs2 := setWelcomeSent r.1.viewers channelId msg.authorChannelId
          ({ r.1 with viewers := vs2 }, r.2)
      let s := wres.1
      let acts0 := wres.2
      match lookupA s.timeoutUsers (channelId, msg.authorChannelId) with
      | some expiry =>
          if now < expiry then (s, acts0)
          else
            let cleared := eraseA s.timeoutUsers (channelId, msg.authorChannelId)
            let s := { s with timeoutUsers := cleared }
            let r := processContent s channelId msg now
            (r.1, acts0 ++ r.2)
      | none =>
          let r := processContent s channelId msg now
          (r.1, acts0 ++ r.2)

/-- The payload of one `liveChatMessages.list` response. -/
structure PollResponse where
  nextPageToken : Option String
  items : List ChatMessage
deriving DecidableEq, Repr

/-- Embeds `pollChat` (src/bot/service.js:240-293): no-op without a registered
stream; on the first poll only the pagination cursor is captured; afterwards
the cursor advances and every returned item is processed in order. -/
def pollChat (s : BotState) (channelId : String) (resp : PollResponse)
    (botChannelId : Option String) (now : Int) (randIdx : Nat) :
    BotState × List Action :=
  match lookupA s.activeStreams channelId with
  | none => (s, [])
  | some st =>
    if st.firstPoll then
      let st2 := { st with nextPageToken := resp.nextPageToken, firstPoll := false }
      ({ s with activeStreams := insertA s.activeStreams channelId st2 },
        [Action.listChat st.liveChatId true none])
    else
      let st2 := { st with nextPageToken := resp.nextPageToken }
      let s := { s with activeStreams := insertA s.activeStreams channelId st2 }
      resp.items.foldl
        (fun acc m =>
          let r := processMessage acc.1 channelId m botChannelId now randIdx
          (r.1, acc.2 ++ r.2))
        (s, [Action.listChat st.liveChatId false st.nextPageToken])

/-- The parsed `/gamble` argument: the literal token `all`, an integer from
`parseInt`, or `NaN` (anything unparsable). -/
inductive GambleArg where
  | all
  | num (n : Int)
  | invalid
deriving DecidableEq, Repr

/-- The roll-to-multiplier mapping of the gamble (1-40 lose, 41-90 double,
91-99 triple, 100 jackpot). -/
def gambleMultiplier (roll : Nat) : Int :=
  if roll ≤ 40 then -1
  else if roll ≤ 90 then 2
  else if roll ≤ 99 then 3
  else 10

/-- The gamble result chat line, chosen by the multiplier branch. -/
def gambleResultMessage (roll : Nat) (name : String) (stake newPoints : Int) :
    String :=
  let m := gambleMultiplier roll
  if m = -1 then
    "Rolled " ++ toString roll ++ ", " ++ name ++ " , you lost " ++
      toString stake ++ " points! 😢 >>> (Balance: " ++ toString newPoints ++ ")"
  else if m = 2 then
    "Rolled " ++ toString roll ++ ", " ++ name ++ " , you won " ++
      toString (stake * (m - 1)) ++ " points! (2x) 🎉 >>> (Balance: " ++
      toString newPoints ++ ")"
  else if m = 3 then
    "Rolled " ++ toString roll ++ ", " ++ name ++ " , you won " ++
      toString (stake * (m - 1)) ++ " points! (3x) 🔥 >>> (Balance: " ++
      toString newPoints ++ ")"
  else
    "Rolled " ++ toString roll ++ ", " ++ name ++ " , you won " ++
      toString (stake * (m - 1)) ++ " points! (10x JACKPOT!) 💎🥳 >>> (Balance: " ++
      toString newPoints ++ ")"

/-- The five-minute gamble cooldown test
(`lastGamble && now - lastGamble < 5 * 60 * 1000`). -/
def gambleOnCooldown (s : BotState) (key : String × String) (now : Int) : Bool :=
  match lookupA s.gambleCooldowns key with
  | some t => !decide (t = 0) && decide (now - t < 5 * 60 * 1000)
  | none => false

/-- The body of the gamble after the cooldown has been stamped: stake
resolution and validation, the roll settlement with the zero floor, the
`$inc` persistence and the result message. -/
def gambleCore (s : BotState) (channelId authorId authorName : String)
    (amount : GambleArg) (roll : Nat) : BotState × List Action :=
  match findViewer s.viewers channelId authorId with
  | none =>
      sendMessage s channelId
        (authorName ++ " , you don\x27t have any points to gamble!")
  | some viewer =>
    let stake : Option Int :=
      match amount with
      | GambleArg.all => some (min viewer.points 3000)
      | GambleArg.num n => some n
      | GambleArg.invalid => none
    match stake with
    | none =>
        sendMessage s channelId
          (authorName ++ " , please specify a valid amount of points to gamble!")
    | some pts =>
      if pts ≤ 0 then
        sendMessage s channelId
          (authorName ++ " , please specify a valid amount of points to gamble!")
      else if viewer.points < pts then
        sendMessage s channelId (authorName ++ " , you don\x27t have enough points!")
      else
        let m := gambleMultiplier roll
        let pointsChange := pts * (m - 1)
        let newPoints := viewer.points + pointsChange
        let settle : Int × Int :=
          if newPoints < 0 then (-viewer.points, 0) else (pointsChange, newPoints)
        let s := { s with
          viewers := incPoints s.viewers channelId authorId settle.1 }
        sendMessage s channelId
          (gambleResultMessage roll authorName pts settle.2)

/-- Embeds `handleGambleCommand` (src/bot/service.js:631-721): silently ignored on
an active cooldown; otherwise the cooldown is stamped first and the core
gamble runs. -/
def handleGambleCommand (s : BotState) (channelId authorId authorName : String)
    (amount : GambleArg) (roll : Nat) (now : Int) : BotState × List Action :=
  let cooldownKey := (channelId, authorId)
  if gambleOnCooldown s cooldownKey now then (s, [])
  else
    let s := { s with
      gambleCooldowns := insertA s.gambleCooldowns cooldownKey now }
    gambleCore s channelId authorId authorName amount roll

/-! ## Claim theorems -/

/-- Claim C10: for a channel with no entry in `activeStreams`, `sendMessage`
returns the state unchanged and issues no chat-API insert: the outbound
reply is silently dropped rather than raising an error. -/
theorem sendMessage_inactive_noop (s : BotState) (channelId text : String)
    (h : lookupA s.activeStreams channelId = none) :
    sendMessage s channelId text = (s, []) := by
  unfold sendMessage
  rw [h]

/-- A bot state with no active session, no timers and no viewers. -/
def emptyBot : BotState :=
  { activeStreams := [], autoMessageTimers := [], pollIntervals := [],
    lastMessageTimestamps := [], gambleCooldowns := [], recentMessages := [],
    timeoutUsers := [], modCache := [], scheduled := [], nextTimerId := 0,
    viewers := [], channels := [] }

/-- Witness for claim C10: a send on a stopped channel is a no-op. -/
theorem sendMessage_inactive_noop_witness :
    sendMessage emptyBot "ch" "hello" = (emptyBot, []) :=
  sendMessage_inactive_noop emptyBot "ch" "hello" (by decide)

/-- Claim C8: on a tick with `firstPoll` set, the loop issues only the
minimal cursor-only request, stores the returned cursor, clears `firstPoll`,
and neither processes any chat event nor sends any outbound message (the
whole output is the single list request, and nothing but the stream entry
changes). -/
theorem pollChat_firstPoll_spec (s : BotState) (c : String)
    (resp : PollResponse) (b : Option String) (now : Int) (ri : Nat)
    (st : StreamInfo)
    (hst : lookupA s.activeStreams c = some st) (hfp : st.firstPoll = true) :
    pollChat s c resp b now ri =
      ({ s with activeStreams := insertA s.activeStreams c ⟨st.liveChatId, resp.nextPageToken, false⟩ },
        [Action.listChat st.liveChatId true none]) := by
  unfold pollChat
  rw [hst]
  simp [hfp]

/-- A session state on its first poll. -/
def firstPollBot : BotState :=
  { emptyBot with activeStreams := [("ch8", ⟨"LC8", none, true⟩)] }

/-- Witness for claim C8 at a concrete first-poll state. -/
theorem pollChat_firstPoll_spec_witness :
    pollChat firstPollBot "ch8" ⟨some "tok8", []⟩ none 0 0 =
      ({ firstPollBot with activeStreams := insertA firstPollBot.activeStreams "ch8" ⟨"LC8", some "tok8", false⟩ },
        [Action.listChat "LC8" true none]) :=
  pollChat_firstPoll_spec firstPollBot "ch8" ⟨some "tok8", []⟩ none 0 0
    ⟨"LC8", none, true⟩ (by decide) (by decide)

/-- A viewer whose `welcomeMessage` field is absent, the document-level
reading of the "unknown" opt-out tri-state the claim describes. -/
def viewerUnknownC6 : Viewer :=
  { channelId := "ch6", viewerId := "u6", username := "Uma", points := 0,
    watchMinutes := 0, lastActive := 0, isAdmin := some false, isFree := false,
    welcomeMessage := none }

/-- Counterexample to claim C6: the session-start reset runs
`updateMany({ channelId }, { $set: { welcomeMessage: false } })` with no
filter on the current value, so a viewer whose `welcomeMessage` is absent
("unknown") is overwritten to `false` rather than left unchanged. -/
theorem resetWelcome_overwrites_unknown :
    viewerUnknownC6.welcomeMessage = none ∧
    (resetWelcomeMessages "ch6" [viewerUnknownC6]).map
        (fun v => v.welcomeMessage) = [some false] := by
  decide

/-- Claim C6 (amended): the welcome-state reset sets `welcomeMessage` to
`false` ("pending") for every viewer of the channel, including any whose
field is absent — no opt-out tri-state value is preserved — and leaves
viewers of other channels untouched. -/
theorem resetWelcome_amended (c : String) (vs : List Viewer) :
    (∀ v ∈ resetWelcomeMessages c vs, v.channelId = c →
      v.welcomeMessage = some false) ∧
    (∀ v ∈ vs, v.channelId ≠ c → v ∈ resetWelcomeMessages c vs) := by
  constructor
  · intro v hv hc
    unfold resetWelcomeMessages at hv
    rw [List.mem_map] at hv
    obtain ⟨w, _, hwe⟩ := hv
    by_cases h : w.channelId = c
    · rw [if_pos h] at hwe
      subst hwe
      rfl
    · rw [if_neg h] at hwe
      subst hwe
      exact absurd hc h
  · intro v hv hne
    unfold resetWelcomeMessages
    rw [List.mem_map]
    exact ⟨v, hv, by rw [if_neg hne]⟩

/-- Witness for the amended claim C6: the overwritten viewer of channel
`ch6` ends up with `welcomeMessage = some false`. -/
theorem resetWelcome_amended_witness :
    ({ viewerUnknownC6 with welcomeMessage := some false } : Viewer).welcomeMessage
      = some false :=
  (resetWelcome_amended "ch6" [viewerUnknownC6]).1
    { viewerUnknownC6 with welcomeMessage := some false } (by decide) (by decide)

/-- The channel owner (author id equals channel id) in a moderation-enabled
channel, already welcomed, not timed out. -/
def ownerStateC3 : BotState :=
  { emptyBot with
    activeStreams := [("owner1", ⟨"LC3", some "t", false⟩)],
    modCache := [("owner1", ["mod1"])],
    viewers := [⟨"owner1", "owner1", "Owner", 0, 0, 0, some false, false, some true⟩],
    channels := [("owner1", true)] }

/-- The owner posts a link. -/
def ownerMsgC3 : ChatMessage :=
  ⟨some "m3", "see https://spam.example", "owner1", "Owner"⟩

/-- Claim C3 evaluated at its failing input: the channel owner (author id
equals channel id, and with "mod1" sitting in the ModerationCache entry that
is never read) posts a link and the content policy fires anyway — the
message is deleted, the owner is banned for 60 seconds and publicly warned —
and no exemption is cached on the Viewer row (`isAdmin` is untouched). -/
theorem owner_is_moderated :
    (processMessage ownerStateC3 "owner1" ownerMsgC3 (some "botid") 1000 0).2 =
      [Action.deleteChat "m3", Action.banUser "LC3" "owner1" 60,
        Action.insertChat "LC3"
          "@Owner posting links is not allowed! You are timed out for 1 min 😡"] ∧
    (processMessage ownerStateC3 "owner1" ownerMsgC3 (some "botid") 1000 0).1.viewers.map
        (fun v => v.isAdmin) = [some false] := by
  decide

/-- A free-exempt viewer with a pending welcome in an active session. -/
def freeStateC4 : BotState :=
  { emptyBot with
    activeStreams := [("ch4", ⟨"LC4", some "t", false⟩)],
    viewers := [⟨"ch4", "uf", "Freddy", 0, 0, 0, some false, true, some false⟩] }

/-- Counterexample to claim C4: a free-exempt viewer whose welcome is still
pending sends a message and no welcome is emitted (no action at all), because
the free-pass short-circuit runs before the welcome logic. -/
theorem free_viewer_gets_no_welcome :
    (processMessage freeStateC4 "ch4" ⟨some "m4", "hello", "uf", "Freddy"⟩
      (some "botid") 1000 0).2 = [] := by
  decide

/-- A welcomed viewer whose `lastActive` is far in the past, in a session
with moderation disabled. -/
def awayStateC5 : BotState :=
  { emptyBot with
    activeStreams := [("ch5", ⟨"LC5", some "t", false⟩)],
    viewers := [⟨"ch5", "ua", "Ada", 0, 0, 0, some false, false, some true⟩] }

/-- Counterexample to claim C5: a viewer welcomed long ago (gap of over a
day since `lastActive`) sends a plain message and the engine sends nothing
at all — there is no "welcome back" path in the code. -/
theorem no_welcome_back_message :
    (processMessage awayStateC5 "ch5" ⟨some "m5", "i am back", "ua", "Ada"⟩
      (some "botid") 100000000 0).2 = [] := by
  decide

/-- A fresh engine with one recently active viewer, before `startBot`. -/
def preStartC7 : BotState :=
  { emptyBot with
    viewers := [⟨"ch7", "uv", "Vik", 0, 0, 0, some false, false, some true⟩] }

/-- Claim C7 evaluated at its failing input: after `startBot` then
`stopBot`, the stream entry, the polling interval and the mod cache are
gone, but the points-distribution timer (whose handle `startBot` never
stored) is still scheduled for the channel, and a later tick of it still
mutates state — the recently active viewer is awarded 10 points after the
stop returned. -/
theorem stopBot_leaves_points_timer :
    (stopBot (startBot preStartC7 "ch7" "LC7" []).1 "ch7").scheduled =
      [⟨1, "ch7", TaskKind.pointsTask⟩] ∧
    lookupA (stopBot (startBot preStartC7 "ch7" "LC7" []).1 "ch7").activeStreams
      "ch7" = none ∧
    lookupA (stopBot (startBot preStartC7 "ch7" "LC7" []).1 "ch7").pollIntervals
      "ch7" = none ∧
    lookupA (stopBot (startBot preStartC7 "ch7" "LC7" []).1 "ch7").modCache
      "ch7" = none ∧
    (distributePoints "ch7" 1000
      (stopBot (startBot preStartC7 "ch7" "LC7" []).1 "ch7").viewers).map
        (fun v => v.points) = [10] := by
  decide

theorem findViewer_mapIf (vs : List Viewer) (c u : String) (f : Viewer → Viewer)
    (hfc : ∀ v, (f v).channelId = v.channelId)
    (hfu : ∀ v, (f v).viewerId = v.viewerId) :
    findViewer (vs.map (fun v =>
      if v.channelId = c ∧ v.viewerId = u then f v else v)) c u =
      (findViewer vs c u).map f := by
  induction vs with
  | nil => rfl
  | cons w ws ih =>
    unfold findViewer at ih ⊢
    simp only [List.map_cons]
    by_cases hc : w.channelId = c
    · by_cases hu : w.viewerId = u
      · rw [if_pos ⟨hc, hu⟩]
        rw [List.find?_cons_of_pos _ (by simp [hfc, hfu, hc, hu]),
          List.find?_cons_of_pos _ (by simp [hc, hu])]
        rfl
      · rw [if_neg (fun hco => hu hco.2)]
        rw [List.find?_cons_of_neg _ (by simp [hu]),
          List.find?_cons_of_neg _ (by simp [hu])]
        exact ih
    · rw [if_neg (fun hco => hc hco.1)]
      rw [List.find?_cons_of_neg _ (by simp [hc]),
        List.find?_cons_of_neg _ (by simp [hc])]
      exact ih

theorem findViewer_incPoints (vs : List Viewer) (c u : String) (delta : Int) :
    findViewer (incPoints vs c u delta) c u =
      (findViewer vs c u).map (fun v => { v with points := v.points + delta }) := by
  unfold incPoints
  exact findViewer_mapIf vs c u _ (fun _ => rfl) (fun _ => rfl)

theorem gambleMultiplier_bands (roll : Nat) (hr1 : 1 ≤ roll) (hr2 : roll ≤ 100) :
    ((1 ≤ roll ∧ roll ≤ 40) ↔ gambleMultiplier roll = -1) ∧
    ((41 ≤ roll ∧ roll ≤ 90) ↔ gambleMultiplier roll = 2) ∧
    ((91 ≤ roll ∧ roll ≤ 99) ↔ gambleMultiplier roll = 3) ∧
    (roll = 100 ↔ gambleMultiplier roll = 10) := by
  unfold gambleMultiplier
  by_cases h40 : roll ≤ 40 <;> by_cases h90 : roll ≤ 90 <;>
    by_cases h99 : roll ≤ 99 <;> simp [h40, h90, h99] <;> omega

theorem gambleCore_valid (s : BotState) (c aid aname : String) (stakeN : Int)
    (roll : Nat) (v : Viewer) (st : StreamInfo)
    (hv : findViewer s.viewers c aid = some v)
    (hst : lookupA s.activeStreams c = some st)
    (h1 : 0 < stakeN) (h2 : stakeN ≤ v.points) :
    gambleCore s c aid aname (GambleArg.num stakeN) roll =
      ({ s with viewers := incPoints s.viewers c aid (max 0 (v.points + stakeN * (gambleMultiplier roll - 1)) - v.points) },
        [Action.insertChat st.liveChatId (gambleResultMessage roll aname stakeN (max 0 (v.points + stakeN * (gambleMultiplier roll - 1))))]) := by
  unfold gambleCore sendMessage
  rw [hv]
  simp only [if_neg (by omega : ¬stakeN ≤ 0),
    if_neg (by omega : ¬v.points < stakeN), hst]
  by_cases hneg : v.points + stakeN * (gambleMultiplier roll - 1) < 0
  · rw [if_pos hneg]
    rw [max_eq_left (le_of_lt hneg)]
    have hd : (0 : Int) - v.points = -v.points := by omega
    rw [hd]
  · rw [if_neg hneg]
    rw [max_eq_right (by omega : (0:Int) ≤ v.points + stakeN * (gambleMultiplier roll - 1))]
    have hd : v.points + stakeN * (gambleMultiplier roll - 1) - v.points =
        stakeN * (gambleMultiplier roll - 1) := by omega
    rw [hd]

/-- Claim C2: for a gamble with a positive stake not exceeding the balance,
the four roll bands 1-40 (multiplier −1), 41-90 (2x), 91-99 (3x) and 100
(10x) partition 1-100, the reported balance is
`max 0 (previousBalance + stake × (multiplier − 1))`, and the stored balance
is incremented by the same (possibly clamped) delta, so it equals the
reported balance. -/
theorem gamble_bands_and_balance (s : BotState) (c aid aname : String)
    (stakeN : Int) (roll : Nat) (now : Int) (v : Viewer) (st : StreamInfo)
    (hcd : gambleOnCooldown s (c, aid) now = false)
    (hv : findViewer s.viewers c aid = some v)
    (hst : lookupA s.activeStreams c = some st)
    (h1 : 0 < stakeN) (h2 : stakeN ≤ v.points)
    (hr1 : 1 ≤ roll) (hr2 : roll ≤ 100) :
    ((1 ≤ roll ∧ roll ≤ 40) ↔ gambleMultiplier roll = -1) ∧
    ((41 ≤ roll ∧ roll ≤ 90) ↔ gambleMultiplier roll = 2) ∧
    ((91 ≤ roll ∧ roll ≤ 99) ↔ gambleMultiplier roll = 3) ∧
    (roll = 100 ↔ gambleMultiplier roll = 10) ∧
    (handleGambleCommand s c aid aname (GambleArg.num stakeN) roll now).2 =
      [Action.insertChat st.liveChatId (gambleResultMessage roll aname stakeN (max 0 (v.points + stakeN * (gambleMultiplier roll - 1))))] ∧
    findViewer (handleGambleCommand s c aid aname (GambleArg.num stakeN) roll now).1.viewers c aid =
      some { v with points := max 0 (v.points + stakeN * (gambleMultiplier roll - 1)) } := by
  obtain ⟨b1, b2, b3, b4⟩ := gambleMultiplier_bands roll hr1 hr2
  have hrun : handleGambleCommand s c aid aname (GambleArg.num stakeN) roll now =
      gambleCore { s with gambleCooldowns := insertA s.gambleCooldowns (c, aid) now }
        c aid aname (GambleArg.num stakeN) roll := by
    unfold handleGambleCommand
    rw [if_neg (by rw [hcd]; exact Bool.false_ne_true)]
  have hcore := gambleCore_valid
    { s with gambleCooldowns := insertA s.gambleCooldowns (c, aid) now }
    c aid aname stakeN roll v st hv hst h1 h2
  refine ⟨b1, b2, b3, b4, ?_, ?_⟩
  · rw [hrun, hcore]
  · rw [hrun, hcore]
    simp only [findViewer_incPoints, hv, Option.map_some']
    have : v.points + (max 0 (v.points + stakeN * (gambleMultiplier roll - 1)) - v.points) =
        max 0 (v.points + stakeN * (gambleMultiplier roll - 1)) := by omega
    rw [this]

/-- A concrete state to witness claim C2: one viewer with 100 points. -/
def gambleStateC2 : BotState :=
  { emptyBot with
    activeStreams := [("ch2", ⟨"LC2", some "t", false⟩)],
    viewers := [⟨"ch2", "ug", "Gem", 100, 0, 0, some false, false, some true⟩] }

/-- Witness for claim C2: stake 30, roll 50 (the 2x band) on a balance of
100 reports and stores `max 0 (100 + 30 × 1) = 130`. -/
theorem gamble_bands_and_balance_witness :
    (handleGambleCommand gambleStateC2 "ch2" "ug" "Gem" (GambleArg.num 30) 50 7).2 =
      [Action.insertChat "LC2" (gambleResultMessage 50 "Gem" 30 (max 0 (100 + 30 * (gambleMultiplier 50 - 1))))] ∧
    findViewer (handleGambleCommand gambleStateC2 "ch2" "ug" "Gem" (GambleArg.num 30) 50 7).1.viewers "ch2" "ug" =
      some ⟨"ch2", "ug", "Gem", max 0 (100 + 30 * (gambleMultiplier 50 - 1)), 0, 0, some false, false, some true⟩ := by
  have h := gamble_bands_and_balance gambleStateC2 "ch2" "ug" "Gem" 30 50 7
    ⟨"ch2", "ug", "Gem", 100, 0, 0, some false, false, some true⟩
    ⟨"LC2", some "t", false⟩ (by decide) (by decide) (by decide)
    (by decide) (by decide) (by decide) (by decide)
  exact ⟨h.2.2.2.2.1, h.2.2.2.2.2⟩

theorem gambleCore_cooldowns (s : BotState) (c aid aname : String)
    (amount : GambleArg) (roll : Nat) :
    (gambleCore s c aid aname amount roll).1.gambleCooldowns =
      s.gambleCooldowns := by
  unfold gambleCore sendMessage
  rcases findViewer s.viewers c aid with _ | v
  · rcases lookupA s.activeStreams c with _ | st <;> rfl
  · rcases amount with _ | n | _ <;>
      simp only [] <;>
      first
      | (rcases lookupA s.activeStreams c with _ | st <;> rfl)
      | (split <;>
          first
          | (rcases lookupA s.activeStreams c with _ | st <;> rfl)
          | (split <;> rcases lookupA s.activeStreams c with _ | st <;> rfl))

/-- Claim C9: when a gamble invocation is not suppressed by an active
cooldown, the per-(channel, viewer) cooldown timestamp is stamped with the
invocation time before the stake is validated, so an invalid, non-positive
or unaffordable stake produces its rejection message while the cooldown
window has nevertheless started. -/
theorem gamble_cooldown_stamped_first (s : BotState) (c aid aname : String)
    (roll : Nat) (now : Int)
    (hcd : gambleOnCooldown s (c, aid) now = false) :
    (∀ amount, lookupA
        (handleGambleCommand s c aid aname amount roll now).1.gambleCooldowns
        (c, aid) = some now) ∧
    (∀ v, findViewer s.viewers c aid = some v →
      ∀ st, lookupA s.activeStreams c = some st →
        ((handleGambleCommand s c aid aname GambleArg.invalid roll now).2 =
          [Action.insertChat st.liveChatId (aname ++ " , please specify a valid amount of points to gamble!")]) ∧
        (∀ n : Int, n ≤ 0 →
          (handleGambleCommand s c aid aname (GambleArg.num n) roll now).2 =
            [Action.insertChat st.liveChatId (aname ++ " , please specify a valid amount of points to gamble!")]) ∧
        (∀ n : Int, 0 < n → v.points < n →
          (handleGambleCommand s c aid aname (GambleArg.num n) roll now).2 =
            [Action.insertChat st.liveChatId (aname ++ " , you don\x27t have enough points!")])) := by
  have hrun : ∀ amount, handleGambleCommand s c aid aname amount roll now =
      gambleCore { s with gambleCooldowns := insertA s.gambleCooldowns (c, aid) now }
        c aid aname amount roll := by
    intro amount
    unfold handleGambleCommand
    rw [if_neg (by rw [hcd]; exact Bool.false_ne_true)]
  constructor
  · intro amount
    rw [hrun, gambleCore_cooldowns]
    exact lookupA_insertA_self s.gambleCooldowns (c, aid) now
  · intro v hv st hst
    refine ⟨?_, ?_, ?_⟩
    · rw [hrun]
      unfold gambleCore sendMessage
      rw [hv]
      simp [hst]
    · intro n hn
      rw [hrun]
      unfold gambleCore sendMessage
      rw [hv]
      simp [hst, if_pos hn]
    · intro n hn hp
      rw [hrun]
      unfold gambleCore sendMessage
      rw [hv]
      simp only [if_neg (by omega : ¬n ≤ 0), if_pos hp, hst]

/-- A concrete state to witness claim C9: one viewer with 5 points and no
cooldown on record. -/
def gambleStateC9 : BotState :=
  { emptyBot with
    activeStreams := [("ch9", ⟨"LC9", some "t", false⟩)],
    viewers := [⟨"ch9", "uq", "Quin", 5, 0, 0, some false, false, some true⟩] }

/-- Witness for claim C9: an unparsable stake stamps the cooldown, and an
unaffordable stake is rejected with a message. -/
theorem gamble_cooldown_stamped_first_witness :
    lookupA (handleGambleCommand gambleStateC9 "ch9" "uq" "Quin"
        GambleArg.invalid 50 777).1.gambleCooldowns ("ch9", "uq") = some 777 ∧
    (handleGambleCommand gambleStateC9 "ch9" "uq" "Quin" (GambleArg.num 10) 50 777).2 =
      [Action.insertChat "LC9" ("Quin" ++ " , you don\x27t have enough points!")] := by
  have h := gamble_cooldown_stamped_first gambleStateC9 "ch9" "uq" "Quin" 50 777
    (by decide)
  exact ⟨h.1 GambleArg.invalid,
    (h.2 ⟨"ch9", "uq", "Quin", 5, 0, 0, some false, false, some true⟩ (by decide)
      ⟨"LC9", some "t", false⟩ (by decide)).2.2 10 (by decide) (by decide)⟩

/-- Claim C4 (amended): the welcome logic runs before the active-timeout
short-circuit, so a viewer with a pending welcome who is inside a timeout
window still receives the welcome message (and nothing else); but the
free-pass check precedes the welcome logic, so a free-exempt author with a
pending welcome receives no welcome at all. -/
theorem welcome_before_timeout_after_freepass (s : BotState) (c : String)
    (msg : ChatMessage) (b : Option String) (now : Int) (ri : Nat)
    (v : Viewer) (st : StreamInfo) (e : Int)
    (htext : msg.text ≠ "") (hbot : b ≠ some msg.authorChannelId)
    (hv : findViewer s.viewers c msg.authorChannelId = some v)
    (hst : lookupA s.activeStreams c = some st)
    (hw : welcomeTruthy v.welcomeMessage = false) :
    (v.isFree = false →
      lookupA s.timeoutUsers (c, msg.authorChannelId) = some e → now < e →
      (processMessage s c msg b now ri).2 =
        [Action.insertChat st.liveChatId (welcomeText ri (if msg.authorDisplayName = "" then "friend" else msg.authorDisplayName))]) ∧
    (v.isFree = true → startsWithSlash msg.text = false →
      (processMessage s c msg b now ri).2 = []) := by
  constructor
  · intro hfree hto hlt
    unfold processMessage sendMessage
    rw [if_neg htext, if_neg hbot, hv]
    simp only [hfree, Bool.false_eq_true, if_false, hw, hst, hto, hlt, if_true,
      if_pos hlt]
  · intro hfree hcmd
    unfold processMessage
    rw [if_neg htext, if_neg hbot, hv]
    simp only [hfree, if_true, hcmd, Bool.false_eq_true, if_false]

/-- A non-free viewer with a pending welcome who is inside a timeout
window. -/
def pendingTimedOutC4 : BotState :=
  { emptyBot with
    activeStreams := [("chw", ⟨"LCW", some "t", false⟩)],
    timeoutUsers := [(("chw", "uw"), 5000)],
    viewers := [⟨"chw", "uw", "Wendy", 0, 0, 0, some false, false, some false⟩] }

/-- Witness for the amended claim C4: the timed-out pending viewer gets
exactly the welcome, and the free-exempt pending viewer gets nothing. -/
theorem welcome_before_timeout_after_freepass_witness :
    (processMessage pendingTimedOutC4 "chw" ⟨some "mw", "hi", "uw", "Wendy"⟩
        none 1000 0).2 =
      [Action.insertChat "LCW" (welcomeText 0 (if "Wendy" = "" then "friend" else "Wendy"))] ∧
    (processMessage freeStateC4 "ch4" ⟨some "m4", "hello", "uf", "Freddy"⟩
        (some "botid") 1000 0).2 = [] := by
  have ha := welcome_before_timeout_after_freepass pendingTimedOutC4 "chw"
    ⟨some "mw", "hi", "uw", "Wendy"⟩ none 1000 0
    ⟨"chw", "uw", "Wendy", 0, 0, 0, some false, false, some false⟩
    ⟨"LCW", some "t", false⟩ 5000 (by decide) (by decide) (by decide) (by decide)
    (by decide)
  have hb := welcome_before_timeout_after_freepass freeStateC4 "ch4"
    ⟨some "m4", "hello", "uf", "Freddy"⟩ (some "botid") 1000 0
    ⟨"ch4", "uf", "Freddy", 0, 0, 0, some false, true, some false⟩
    ⟨"LC4", some "t", false⟩ 0 (by decide) (by decide) (by decide) (by decide)
    (by decide)
  exact ⟨ha.1 (by decide) (by decide) (by decide), hb.2 (by decide) (by decide)⟩

/-- Claim C5 (amended): a viewer whose `welcomeMessage` state is already
sent receives no greeting of any kind from processing a plain non-command
message, whatever the gap between `now` and the viewer's `lastActive` — the
engine has no "welcome back" path. -/
theorem welcomed_viewer_no_return_greeting (s : BotState) (c : String)
    (msg : ChatMessage) (b : Option String) (now : Int) (ri : Nat) (v : Viewer)
    (htext : msg.text ≠ "") (hbot : b ≠ some msg.authorChannelId)
    (hv : findViewer s.viewers c msg.authorChannelId = some v)
    (hfree : v.isFree = false)
    (hw : welcomeTruthy v.welcomeMessage = true)
    (hto : lookupA s.timeoutUsers (c, msg.authorChannelId) = none)
    (hmod : lookupA s.channels c = none)
    (hcmd : startsWithSlash msg.text = false) :
    (processMessage s c msg b now ri).2 = [] := by
  unfold processMessage processContent bookkeepAndDispatch
  rw [if_neg htext, if_neg hbot, hv]
  simp only [hfree, Bool.false_eq_true, if_false, hw, if_true, hto, hmod,
    Option.getD_none, hcmd]
  rfl

/-- Witness for the amended claim C5 at a gap of more than a day. -/
theorem welcomed_viewer_no_return_greeting_witness :
    (processMessage awayStateC5 "ch5" ⟨some "m6", "hello again", "ua", "Ada"⟩
        none 100000000 3).2 = [] :=
  welcomed_viewer_no_return_greeting awayStateC5 "ch5"
    ⟨some "m6", "hello again", "ua", "Ada"⟩ none 100000000 3
    ⟨"ch5", "ua", "Ada", 0, 0, 0, some false, false, some true⟩
    (by decide) (by decide) (by decide) (by decide) (by decide) (by decide)
    (by decide) (by decide)

end YTLive
